import Mathlib

/-!
Verification of the MGCE Platform analysis chain (`backend/main.py`).

The chain is `analyze_load → size_system → estimate_costs →
analyze_financials → assess_reliability → generate_recommendations`,
all straight-line arithmetic over Python floats.  Floats are modelled
as exact rationals; Python's `round(x, n)` (banker's rounding, ties to
even) is modelled by `roundDec`.  The one place where the Python code
can raise `ZeroDivisionError` on the analysis path, the battery
recommendation string, is modelled with `Option`.
-/

/-- Round a rational to the nearest integer, ties to even
(the behaviour of Python's builtin `round`). -/
def roundHalfEven (q : ℚ) : ℤ :=
  if q - ⌊q⌋ < 1/2 then ⌊q⌋
  else if 1/2 < q - ⌊q⌋ then ⌊q⌋ + 1
  else if ⌊q⌋ % 2 = 0 then ⌊q⌋ else ⌊q⌋ + 1

/-- Python's `round(q, n)`: round to `n` decimal places, ties to even. -/
def roundDec (n : ℕ) (q : ℚ) : ℚ := (roundHalfEven (q * 10 ^ n) : ℚ) / 10 ^ n

lemma le_roundHalfEven (x : ℚ) (c : ℤ) (h : (c : ℚ) ≤ x) : c ≤ roundHalfEven x := by
  have hf : c ≤ ⌊x⌋ := Int.le_floor.mpr h
  unfold roundHalfEven
  split_ifs <;> omega

lemma roundHalfEven_le (x : ℚ) (c : ℤ) (h : x ≤ (c : ℚ)) : roundHalfEven x ≤ c := by
  have hf : ⌊x⌋ ≤ c := by
    have h1 : ⌊x⌋ ≤ ⌊(c : ℚ)⌋ := Int.floor_le_floor h
    simpa using h1
  have hflt : (1 : ℚ)/2 ≤ x - ⌊x⌋ → ⌊x⌋ < c := by
    intro hr
    rcases lt_or_eq_of_le hf with hlt | heq
    · exact hlt
    · exfalso
      rw [heq] at hr
      linarith
  unfold roundHalfEven
  split_ifs with h1 h2 h3
  · exact hf
  · have := hflt (le_of_lt h2)
    omega
  · exact hf
  · have := hflt (le_of_not_lt h1)
    omega

lemma abs_roundHalfEven_sub_le (x : ℚ) : |(roundHalfEven x : ℚ) - x| ≤ 1/2 := by
  have h1 := Int.floor_le x
  have h2 := Int.lt_floor_add_one x
  unfold roundHalfEven
  split_ifs with ha hb hc
  · rw [abs_le]
    constructor <;> linarith
  · rw [not_lt] at ha
    rw [abs_le]
    constructor <;> push_cast <;> linarith
  · rw [not_lt] at ha hb
    rw [abs_le]
    constructor <;> linarith
  · rw [not_lt] at ha hb
    rw [abs_le]
    constructor <;> push_cast <;> linarith

lemma abs_roundDec_sub_le (n : ℕ) (q : ℚ) : |roundDec n q - q| ≤ 1 / (2 * 10 ^ n) := by
  have hp : (0 : ℚ) < 10 ^ n := by positivity
  have h := abs_roundHalfEven_sub_le (q * 10 ^ n)
  have key : |roundDec n q - q|
      = |(roundHalfEven (q * 10 ^ n) : ℚ) - q * 10 ^ n| / 10 ^ n := by
    unfold roundDec
    rw [← abs_of_pos hp, ← abs_div]
    congr 1
    field_simp
    ring
  rw [key, show (1 : ℚ) / (2 * 10 ^ n) = (1/2) / 10 ^ n by ring]
  gcongr

lemma roundDec_le_div (n : ℕ) (q : ℚ) (c : ℤ) (h : q * 10 ^ n ≤ (c : ℚ)) :
    roundDec n q ≤ (c : ℚ) / 10 ^ n := by
  have hp : (0 : ℚ) < 10 ^ n := by positivity
  unfold roundDec
  gcongr
  exact_mod_cast roundHalfEven_le _ _ h

lemma div_le_roundDec (n : ℕ) (q : ℚ) (c : ℤ) (h : (c : ℚ) ≤ q * 10 ^ n) :
    (c : ℚ) / 10 ^ n ≤ roundDec n q := by
  have hp : (0 : ℚ) < 10 ^ n := by positivity
  unfold roundDec
  gcongr
  exact_mod_cast le_roundHalfEven _ _ h

lemma roundDec_le_intCast (n : ℕ) (q : ℚ) (c : ℤ) (h : q ≤ (c : ℚ)) :
    roundDec n q ≤ (c : ℚ) := by
  have hp : (0 : ℚ) < 10 ^ n := by positivity
  have h2 : q * 10 ^ n ≤ ((c * 10 ^ n : ℤ) : ℚ) := by
    push_cast
    exact mul_le_mul_of_nonneg_right h hp.le
  have h3 := roundDec_le_div n q (c * 10 ^ n) h2
  rwa [show (((c * 10 ^ n : ℤ) : ℚ)) / 10 ^ n = (c : ℚ) by push_cast; field_simp] at h3

lemma intCast_le_roundDec (n : ℕ) (q : ℚ) (c : ℤ) (h : (c : ℚ) ≤ q) :
    (c : ℚ) ≤ roundDec n q := by
  have hp : (0 : ℚ) < 10 ^ n := by positivity
  have h2 : ((c * 10 ^ n : ℤ) : ℚ) ≤ q * 10 ^ n := by
    push_cast
    exact mul_le_mul_of_nonneg_right h hp.le
  have h3 := div_le_roundDec n q (c * 10 ^ n) h2
  rwa [show (((c * 10 ^ n : ℤ) : ℚ)) / 10 ^ n = (c : ℚ) by push_cast; field_simp] at h3

lemma roundDec_nonneg (n : ℕ) (q : ℚ) (h : 0 ≤ q) : 0 ≤ roundDec n q := by
  simpa using intCast_le_roundDec n q 0 (by simpa using h)

lemma roundDec_le_one (n : ℕ) (q : ℚ) (h : q ≤ 1) : roundDec n q ≤ 1 := by
  simpa using roundDec_le_intCast n q 1 (by simpa using h)

lemma roundDec_zero (n : ℕ) : roundDec n 0 = 0 :=
  le_antisymm (by simpa using roundDec_le_intCast n 0 0 le_rfl)
    (by simpa using intCast_le_roundDec n 0 0 le_rfl)

lemma roundDec_one (n : ℕ) : roundDec n 1 = 1 :=
  le_antisymm (by simpa using roundDec_le_intCast n 1 1 le_rfl)
    (by simpa using intCast_le_roundDec n 1 1 le_rfl)

lemma roundHalfEven_intCast (m : ℤ) : roundHalfEven (m : ℚ) = m := by
  unfold roundHalfEven
  rw [Int.floor_intCast]
  rw [if_pos (by norm_num)]

lemma roundHalfEven_eq_low (x : ℚ) (m : ℤ) (h1 : (m : ℚ) ≤ x) (h2 : x < (m : ℚ) + 1/2) :
    roundHalfEven x = m := by
  have hf : ⌊x⌋ = m := Int.floor_eq_iff.mpr ⟨h1, by linarith⟩
  unfold roundHalfEven
  rw [hf, if_pos (by linarith)]

lemma roundHalfEven_eq_high (x : ℚ) (m : ℤ) (h1 : (m : ℚ) + 1/2 < x) (h2 : x < (m : ℚ) + 1) :
    roundHalfEven x = m + 1 := by
  have hf : ⌊x⌋ = m := Int.floor_eq_iff.mpr ⟨by linarith, by linarith⟩
  have hc1 : ¬(x - (⌊x⌋ : ℚ) < 1/2) := by
    rw [hf, not_lt]
    linarith
  have hc2 : (1 : ℚ)/2 < x - (⌊x⌋ : ℚ) := by
    rw [hf]
    linarith
  unfold roundHalfEven
  rw [if_neg hc1, if_pos hc2, hf]

lemma roundHalfEven_eq_tie_even (x : ℚ) (m : ℤ) (h1 : x = (m : ℚ) + 1/2)
    (h2 : m % 2 = 0) : roundHalfEven x = m := by
  have hf : ⌊x⌋ = m := Int.floor_eq_iff.mpr ⟨by rw [h1]; linarith, by rw [h1]; linarith⟩
  have hc1 : ¬(x - (⌊x⌋ : ℚ) < 1/2) := by
    rw [hf, h1, not_lt]
    linarith
  have hc2 : ¬((1 : ℚ)/2 < x - (⌊x⌋ : ℚ)) := by
    rw [hf, h1, not_lt]
    linarith
  unfold roundHalfEven
  rw [if_neg hc1, if_neg hc2, if_pos (by rw [hf]; exact h2)]
  exact hf

lemma roundDec_eq_self (n : ℕ) (q : ℚ) (m : ℤ) (h : q * 10 ^ n = (m : ℚ)) :
    roundDec n q = q := by
  unfold roundDec
  rw [h, roundHalfEven_intCast, ← h]
  field_simp

lemma roundDec_eq_low (n : ℕ) (q : ℚ) (m : ℤ) (h1 : (m : ℚ) ≤ q * 10 ^ n)
    (h2 : q * 10 ^ n < (m : ℚ) + 1/2) : roundDec n q = (m : ℚ) / 10 ^ n := by
  unfold roundDec
  rw [roundHalfEven_eq_low _ m h1 h2]

lemma roundDec_eq_high (n : ℕ) (q : ℚ) (m : ℤ) (h1 : (m : ℚ) + 1/2 < q * 10 ^ n)
    (h2 : q * 10 ^ n < (m : ℚ) + 1) : roundDec n q = ((m : ℚ) + 1) / 10 ^ n := by
  unfold roundDec
  rw [roundHalfEven_eq_high _ m h1 h2]
  push_cast
  ring

lemma roundDec_eq_tie_even (n : ℕ) (q : ℚ) (m : ℤ) (h1 : q * 10 ^ n = (m : ℚ) + 1/2)
    (h2 : m % 2 = 0) : roundDec n q = (m : ℚ) / 10 ^ n := by
  unfold roundDec
  rw [roundHalfEven_eq_tie_even _ m h1 h2]

/-! ## Data model (`backend/main.py`, Pydantic models) -/

/-- User input for facility information (`FacilityInput`).  The Pydantic
field constraints (`gt=0`, `ge=0`, `le=100`) are collected in
`FacilityInput.Valid` below; the endpoint rejects violating inputs
before the analysis chain runs. -/
structure FacilityInput where
  facility_name : String
  facility_type : String
  location : String
  peak_demand_kw : ℚ
  annual_consumption_kwh : ℚ
  critical_load_percent : ℚ
  essential_load_percent : ℚ
  backup_duration_hours : ℚ
  grid_connected : Bool
  include_solar : Bool
  include_battery : Bool
  include_generator : Bool

/-- The Pydantic validation constraints on `FacilityInput`. -/
def FacilityInput.Valid (f : FacilityInput) : Prop :=
  0 < f.peak_demand_kw ∧ 0 < f.annual_consumption_kwh ∧
  0 ≤ f.critical_load_percent ∧ f.critical_load_percent ≤ 100 ∧
  0 ≤ f.essential_load_percent ∧ f.essential_load_percent ≤ 100 ∧
  0 < f.backup_duration_hours

instance (f : FacilityInput) : Decidable f.Valid := by
  unfold FacilityInput.Valid
  infer_instance

/-- The dict returned by `LoadAnalyzer.analyze_load`. -/
structure LoadAnalysis where
  peak_demand_kw : ℚ
  average_demand_kw : ℚ
  critical_load_kw : ℚ
  essential_load_kw : ℚ
  non_critical_load_kw : ℚ
  backup_load_kw : ℚ
  load_factor : ℚ
  annual_consumption_kwh : ℚ
deriving DecidableEq

/-- Microgrid system design output (`MicrogridDesign`). -/
structure MicrogridDesign where
  solar_pv_kw : ℚ
  battery_kw : ℚ
  battery_kwh : ℚ
  generator_kw : ℚ
  inverter_kw : ℚ
  total_generation_kw : ℚ
  renewable_fraction : ℚ
  critical_load_coverage : ℚ
deriving DecidableEq

/-- Cost estimation output (`CostEstimate`). -/
structure CostEstimate where
  solar_pv_cost : ℚ
  battery_cost : ℚ
  generator_cost : ℚ
  inverter_cost : ℚ
  bos_cost : ℚ
  installation_cost : ℚ
  total_capital_cost : ℚ
  annual_om_cost : ℚ
  cost_per_kw : ℚ
deriving DecidableEq

/-- Financial analysis output (`FinancialAnalysis`). -/
structure FinancialAnalysis where
  lcoe : ℚ
  simple_payback_years : ℚ
  npv : ℚ
  irr : ℚ
  annual_savings : ℚ
  federal_itc : ℚ
  total_incentives : ℚ
  net_cost_after_incentives : ℚ
deriving DecidableEq

/-- Reliability assessment output (`ReliabilityAssessment`). -/
structure ReliabilityAssessment where
  backup_duration_hours : ℚ
  critical_load_coverage_percent : ℚ
  expected_outage_hours_per_year : ℚ
  avoided_outage_cost : ℚ
  reliability_improvement_percent : ℚ
deriving DecidableEq

/-! ## Load Analyzer (`LoadAnalyzer.analyze_load`) -/

/-- `LoadAnalyzer.analyze_load`: the dict it returns holds the derived
load quantities already rounded to 2 (or 3) decimal places, exactly as
in the source. -/
def analyze_load (facility : FacilityInput) : LoadAnalysis :=
  let critical_load_kw := facility.peak_demand_kw * (facility.critical_load_percent / 100)
  let essential_load_kw := facility.peak_demand_kw * (facility.essential_load_percent / 100)
  let non_critical_load_kw := facility.peak_demand_kw - critical_load_kw - essential_load_kw
  let hours_per_year : ℚ := 8760
  let load_factor := facility.annual_consumption_kwh / (facility.peak_demand_kw * hours_per_year)
  let avg_demand_kw := facility.annual_consumption_kwh / hours_per_year
  let backup_load_kw := critical_load_kw + essential_load_kw
  { peak_demand_kw := facility.peak_demand_kw
    average_demand_kw := roundDec 2 avg_demand_kw
    critical_load_kw := roundDec 2 critical_load_kw
    essential_load_kw := roundDec 2 essential_load_kw
    non_critical_load_kw := roundDec 2 non_critical_load_kw
    backup_load_kw := roundDec 2 backup_load_kw
    load_factor := roundDec 3 load_factor
    annual_consumption_kwh := facility.annual_consumption_kwh }

/-- Modelled from the spec: the reference Load Analyzer that carries the
full-precision (unrounded) values into the downstream components,
rounding only at the final output boundary.  This is the comparison
point demanded by the spec's refinement sentence; the source
`analyze_load` above is what the code actually does. -/
def analyze_load_spec (facility : FacilityInput) : LoadAnalysis :=
  let critical_load_kw := facility.peak_demand_kw * (facility.critical_load_percent / 100)
  let essential_load_kw := facility.peak_demand_kw * (facility.essential_load_percent / 100)
  let non_critical_load_kw := facility.peak_demand_kw - critical_load_kw - essential_load_kw
  let hours_per_year : ℚ := 8760
  let load_factor := facility.annual_consumption_kwh / (facility.peak_demand_kw * hours_per_year)
  let avg_demand_kw := facility.annual_consumption_kwh / hours_per_year
  let backup_load_kw := critical_load_kw + essential_load_kw
  { peak_demand_kw := facility.peak_demand_kw
    average_demand_kw := avg_demand_kw
    critical_load_kw := critical_load_kw
    essential_load_kw := essential_load_kw
    non_critical_load_kw := non_critical_load_kw
    backup_load_kw := backup_load_kw
    load_factor := load_factor
    annual_consumption_kwh := facility.annual_consumption_kwh }

/-! ## System Sizer (`SystemSizer.size_system`)

Constants: `solar_capacity_factor = 0.269`,
`battery_round_trip_efficiency = 0.85`. -/

/-- `SystemSizer.size_system`. -/
def size_system (facility : FacilityInput) (load_analysis : LoadAnalysis) : MicrogridDesign :=
  let backup_load_kw := load_analysis.backup_load_kw
  let critical_load_kw := load_analysis.critical_load_kw
  let solar_pv_kw : ℚ :=
    if facility.include_solar then
      min (roundDec 1 (load_analysis.average_demand_kw * 1.3 / 0.269))
        (facility.peak_demand_kw * 1.5)
    else 0
  let battery_hours := min 4 facility.backup_duration_hours
  let battery_kwh : ℚ :=
    if facility.include_battery then roundDec 1 (backup_load_kw * battery_hours / 0.85) else 0
  let battery_kw : ℚ :=
    if facility.include_battery then roundDec 1 (backup_load_kw * 1.1) else 0
  let generator_kw : ℚ :=
    if facility.include_generator then roundDec 1 (backup_load_kw * 1.2) else 0
  let inverter_kw := roundDec 1 (max (max solar_pv_kw battery_kw) backup_load_kw * 1.1)
  let total_generation_kw := solar_pv_kw + generator_kw
  let renewable_fraction : ℚ :=
    if 0 < total_generation_kw then roundDec 3 (solar_pv_kw / total_generation_kw) else 0
  let critical_load_coverage : ℚ :=
    if 0 < critical_load_kw then min 1 ((battery_kw + generator_kw) / critical_load_kw) else 1
  { solar_pv_kw := solar_pv_kw
    battery_kw := battery_kw
    battery_kwh := battery_kwh
    generator_kw := generator_kw
    inverter_kw := inverter_kw
    total_generation_kw := roundDec 1 total_generation_kw
    renewable_fraction := roundDec 3 renewable_fraction
    critical_load_coverage := roundDec 3 critical_load_coverage }

/-! ## Cost Estimator (`CostEstimator.estimate_costs`)

Per-unit costs from `default_costs`: solar 1551 $/kW, battery 485
$/kWh, generator 800 $/kW, inverter 150 $/kW, BOS 15 %, installation
20 %, O&M 1.5 % of capital. -/

/-- Equipment subtotal of `CostEstimator.estimate_costs`. -/
def equipment_cost (design : MicrogridDesign) : ℚ :=
  design.solar_pv_kw * 1551 + design.battery_kwh * 485
    + design.generator_kw * 800 + design.inverter_kw * 150

/-- `CostEstimator.estimate_costs`. -/
def estimate_costs (design : MicrogridDesign) : CostEstimate :=
  let bos_cost := equipment_cost design * 0.15
  let installation_cost := equipment_cost design * 0.20
  let total_capital_cost := equipment_cost design + bos_cost + installation_cost
  let annual_om_cost := total_capital_cost * 0.015
  let total_capacity := design.solar_pv_kw + design.generator_kw
  let cost_per_kw : ℚ := if 0 < total_capacity then total_capital_cost / total_capacity else 0
  { solar_pv_cost := roundDec 2 (design.solar_pv_kw * 1551)
    battery_cost := roundDec 2 (design.battery_kwh * 485)
    generator_cost := roundDec 2 (design.generator_kw * 800)
    inverter_cost := roundDec 2 (design.inverter_kw * 150)
    bos_cost := roundDec 2 bos_cost
    installation_cost := roundDec 2 installation_cost
    total_capital_cost := roundDec 2 total_capital_cost
    annual_om_cost := roundDec 2 annual_om_cost
    cost_per_kw := roundDec 2 cost_per_kw }

/-! ## Financial Analyzer (`FinancialAnalyzer.analyze_financials`)

Constants from `default_params`, `tou_rates` and `la_incentives`:
ITC 30 %, discount rate 6 %, retail rate 0.0945 $/kWh, escalation 2 %,
lifetime 25 y, TOU spreads and demand charges, commercial
interconnection fee 75 $, permit fees 50–500 $. -/

/-- `FinancialAnalyzer.calculate_arbitrage_savings`. -/
def calculate_arbitrage_savings (design : MicrogridDesign) : ℚ :=
  if design.battery_kwh ≤ 0 then 0
  else
    let summer_spread : ℚ := 0.02554 - 0.00607
    let battery_efficiency : ℚ := 0.85
    let summer_cycles : ℚ := 22 * 6
    let summer_arbitrage := design.battery_kwh * summer_spread * battery_efficiency * summer_cycles
    let winter_spread : ℚ := 0.00746 - 0.00607
    let winter_cycles : ℚ := 22 * 6
    let winter_arbitrage := design.battery_kwh * winter_spread * battery_efficiency * winter_cycles
    summer_arbitrage + winter_arbitrage

/-- `FinancialAnalyzer.calculate_demand_charge_savings`. -/
def calculate_demand_charge_savings (design : MicrogridDesign) : ℚ :=
  if design.battery_kw ≤ 0 then 0
  else
    let peak_reduction_kw := design.battery_kw * 0.8
    let summer_savings := peak_reduction_kw * 16.13 * 6
    let winter_savings := peak_reduction_kw * 14.50 * 6
    summer_savings + winter_savings

/-- Federal ITC: 30 % of the solar and battery equipment costs
(`analyze_financials`, lines computing `eligible_cost` and
`federal_itc`). -/
def federal_itc (costs : CostEstimate) : ℚ :=
  (costs.solar_pv_cost + costs.battery_cost) * 0.30

/-- Net cost after incentives: capital − ITC + commercial
interconnection fee + average permit fee (`analyze_financials`). -/
def net_cost (costs : CostEstimate) : ℚ :=
  costs.total_capital_cost - federal_itc costs + 75 + (50 + 500) / 2

/-- Annual solar production: `solar_pv_kw * 8760 * 0.269`
(`analyze_financials`). -/
def solar_production_kwh (design : MicrogridDesign) : ℚ :=
  design.solar_pv_kw * 8760 * 0.269

/-- Total annual savings: self-consumption (80 % at retail rate) +
export credits (20 % at 0.0259 $/kWh) + TOU arbitrage + demand-charge
savings (`analyze_financials`). -/
def annual_savings (design : MicrogridDesign) : ℚ :=
  solar_production_kwh design * 0.80 * 0.0945
    + solar_production_kwh design * (1 - 0.80) * 0.0259
    + calculate_arbitrage_savings design
    + calculate_demand_charge_savings design

/-- Net annual savings after O&M (`analyze_financials`). -/
def net_annual_savings (design : MicrogridDesign) (costs : CostEstimate) : ℚ :=
  annual_savings design - costs.annual_om_cost

/-- Simple payback with the 999 sentinel (`analyze_financials`). -/
def simple_payback (design : MicrogridDesign) (costs : CostEstimate) : ℚ :=
  if 0 < net_annual_savings design costs
  then net_cost costs / net_annual_savings design costs
  else 999

/-- `FinancialAnalyzer.analyze_financials`.  The `facility` argument is
accepted but, as in the source, never read. -/
def analyze_financials (facility : FacilityInput) (design : MicrogridDesign)
    (costs : CostEstimate) : FinancialAnalysis :=
  let lifetime : ℕ := 25
  let discount_rate : ℚ := 0.06
  let total_energy := solar_production_kwh design * 25
  let npv_costs := (List.range lifetime).foldl
    (fun acc year => acc + costs.annual_om_cost / (1 + discount_rate) ^ (year + 1))
    (net_cost costs)
  let lcoe : ℚ := if 0 < total_energy then npv_costs / total_energy else 0
  let npv := (List.range lifetime).foldl
    (fun acc year =>
      acc + net_annual_savings design costs * (1 + 0.02) ^ (year + 1)
        / (1 + discount_rate) ^ (year + 1))
    (-(net_cost costs))
  let irr : ℚ :=
    if 0 < net_cost costs then net_annual_savings design costs / net_cost costs else 0
  { lcoe := roundDec 4 lcoe
    simple_payback_years := roundDec 1 (simple_payback design costs)
    npv := roundDec 2 npv
    irr := roundDec 2 (irr * 100)
    annual_savings := roundDec 2 (annual_savings design)
    federal_itc := roundDec 2 (federal_itc costs)
    total_incentives := roundDec 2 (federal_itc costs)
    net_cost_after_incentives := roundDec 2 (net_cost costs) }

/-! ## Reliability Analyzer (`ReliabilityAnalyzer.assess_reliability`)

Louisiana metrics from `load_reliability_data`: SAIDI (with major event
days) 652.5 min/yr; interruption costs per kWh keyed by facility type
with default 25 $/kWh. -/

/-- Python's `str.lower()`, modelled character-wise (every key of the
interruption-cost table and every facility type of interest is ASCII,
where `Char.toLower` agrees with Python). -/
def str_lower (s : String) : String := ⟨s.data.map Char.toLower⟩

/-- Interruption cost table `interruption_costs` with the `.get`
default of 25 $/kWh (`assess_reliability`). -/
def interruption_costs (key : String) : ℚ :=
  if key = "commercial" then 25
  else if key = "industrial" then 15
  else if key = "residential" then 5
  else if key = "hospital" then 100
  else 25

/-- Expected outage hours per year: SAIDI 652.5 minutes / 60
(`assess_reliability`). -/
def expected_outage_hours : ℚ := 652.5 / 60

/-- Backup hours from battery (guarded against zero backup load) plus
72 h of generator fuel (`assess_reliability`). -/
def total_backup_hours (design : MicrogridDesign) (load_analysis : LoadAnalysis) : ℚ :=
  (if 0 < load_analysis.backup_load_kw
   then design.battery_kwh / load_analysis.backup_load_kw else 0)
    + (if 0 < design.generator_kw then 72 else 0)

/-- `ReliabilityAnalyzer.assess_reliability`.  The lookup key is the
lowercased `facility_type`, as in `facility.facility_type.lower()`. -/
def assess_reliability (facility : FacilityInput) (design : MicrogridDesign)
    (load_analysis : LoadAnalysis) : ReliabilityAssessment :=
  let critical_coverage := design.critical_load_coverage * 100
  let cost_per_kwh := interruption_costs (str_lower facility.facility_type)
  let avoided_energy := load_analysis.critical_load_kw * expected_outage_hours
  let avoided_outage_cost := avoided_energy * cost_per_kwh * (critical_coverage / 100)
  let reliability_improvement : ℚ :=
    if expected_outage_hours ≤ total_backup_hours design load_analysis then 95
    else total_backup_hours design load_analysis / expected_outage_hours * 100
  { backup_duration_hours := roundDec 1 (total_backup_hours design load_analysis)
    critical_load_coverage_percent := roundDec 1 critical_coverage
    expected_outage_hours_per_year := roundDec 1 expected_outage_hours
    avoided_outage_cost := roundDec 2 avoided_outage_cost
    reliability_improvement_percent := roundDec 1 (min reliability_improvement 99) }

/-! ## Recommendation generator (`generate_recommendations`)

The f-strings are abstracted to constructors carrying the numbers that
are interpolated.  The battery recommendation computes
`battery_kwh / battery_kw` under the guard `battery_kwh > 0` only; in
Python a zero `battery_kw` there raises `ZeroDivisionError`, modelled
as `none`. -/

/-- One recommendation string, abstracted to its interpolated data. -/
inductive Recommendation where
  | solar (kw frac_pct : ℚ)
  | battery (kwh hours : ℚ)
  | generator (kw : ℚ)
  | payback (years itc : ℚ)
  | npv (amount : ℚ)
  | reliability (pct : ℚ)
  | avoided_outage (cost : ℚ)
  | islanding
deriving DecidableEq

/-- `generate_recommendations`.  The `facility` and `costs` arguments
are accepted but, as in the source, never read. -/
def generate_recommendations (facility : FacilityInput) (design : MicrogridDesign)
    (costs : CostEstimate) (financial : FinancialAnalysis)
    (reliability : ReliabilityAssessment) : Option (List Recommendation) :=
  let solar_recs : List Recommendation :=
    if 0 < design.solar_pv_kw
    then [Recommendation.solar design.solar_pv_kw (design.renewable_fraction * 100)] else []
  let battery_recs : Option (List Recommendation) :=
    if 0 < design.battery_kwh then
      if design.battery_kw = 0 then none
      else some [Recommendation.battery design.battery_kwh
        (design.battery_kwh / design.battery_kw)]
    else some []
  battery_recs.map (fun bat =>
    solar_recs ++ bat
      ++ (if 0 < design.generator_kw then [Recommendation.generator design.generator_kw] else [])
      ++ (if financial.simple_payback_years < 10
          then [Recommendation.payback financial.simple_payback_years financial.federal_itc] else [])
      ++ (if 0 < financial.npv then [Recommendation.npv financial.npv] else [])
      ++ (if 90 < reliability.reliability_improvement_percent
          then [Recommendation.reliability reliability.reliability_improvement_percent] else [])
      ++ (if 10000 < reliability.avoided_outage_cost
          then [Recommendation.avoided_outage reliability.avoided_outage_cost] else [])
      ++ [Recommendation.islanding])

/-! ## Full chain (`POST /analyze`, `analyze_microgrid`) -/

/-- Complete analysis result (`FullAnalysisResult`). -/
structure FullAnalysisResult where
  facility : LoadAnalysis
  design : MicrogridDesign
  costs : CostEstimate
  financial : FinancialAnalysis
  reliability : ReliabilityAssessment
  recommendations : List Recommendation
deriving DecidableEq

/-- The `/analyze` pipeline.  `none` models the only arithmetic
exception reachable on this path (the unguarded division in the battery
recommendation), which the endpoint surfaces as HTTP 500. -/
def analyze_microgrid (facility : FacilityInput) : Option FullAnalysisResult :=
  let load_analysis := analyze_load facility
  let design := size_system facility load_analysis
  let costs := estimate_costs design
  let financial := analyze_financials facility design costs
  let reliability := assess_reliability facility design load_analysis
  (generate_recommendations facility design costs financial reliability).map
    (fun recommendations =>
      { facility := load_analysis
        design := design
        costs := costs
        financial := financial
        reliability := reliability
        recommendations := recommendations })

/-! ## Characterization lemmas (definitional unfoldings of the fields) -/

lemma analyze_load_average (f : FacilityInput) :
    (analyze_load f).average_demand_kw = roundDec 2 (f.annual_consumption_kwh / 8760) := rfl

lemma analyze_load_critical (f : FacilityInput) :
    (analyze_load f).critical_load_kw
      = roundDec 2 (f.peak_demand_kw * (f.critical_load_percent / 100)) := rfl

lemma analyze_load_essential (f : FacilityInput) :
    (analyze_load f).essential_load_kw
      = roundDec 2 (f.peak_demand_kw * (f.essential_load_percent / 100)) := rfl

lemma analyze_load_non_critical (f : FacilityInput) :
    (analyze_load f).non_critical_load_kw
      = roundDec 2 (f.peak_demand_kw - f.peak_demand_kw * (f.critical_load_percent / 100)
          - f.peak_demand_kw * (f.essential_load_percent / 100)) := rfl

lemma analyze_load_backup (f : FacilityInput) :
    (analyze_load f).backup_load_kw
      = roundDec 2 (f.peak_demand_kw * (f.critical_load_percent / 100)
          + f.peak_demand_kw * (f.essential_load_percent / 100)) := rfl

lemma size_system_solar (f : FacilityInput) (la : LoadAnalysis) :
    (size_system f la).solar_pv_kw
      = if f.include_solar then
          min (roundDec 1 (la.average_demand_kw * 1.3 / 0.269)) (f.peak_demand_kw * 1.5)
        else 0 := rfl

lemma size_system_battery_kw (f : FacilityInput) (la : LoadAnalysis) :
    (size_system f la).battery_kw
      = if f.include_battery then roundDec 1 (la.backup_load_kw * 1.1) else 0 := rfl

lemma size_system_battery_kwh (f : FacilityInput) (la : LoadAnalysis) :
    (size_system f la).battery_kwh
      = if f.include_battery
        then roundDec 1 (la.backup_load_kw * min 4 f.backup_duration_hours / 0.85) else 0 := rfl

lemma size_system_generator (f : FacilityInput) (la : LoadAnalysis) :
    (size_system f la).generator_kw
      = if f.include_generator then roundDec 1 (la.backup_load_kw * 1.2) else 0 := rfl

lemma size_system_inverter (f : FacilityInput) (la : LoadAnalysis) :
    (size_system f la).inverter_kw
      = roundDec 1 (max (max (size_system f la).solar_pv_kw (size_system f la).battery_kw)
          la.backup_load_kw * 1.1) := rfl

lemma size_system_total (f : FacilityInput) (la : LoadAnalysis) :
    (size_system f la).total_generation_kw
      = roundDec 1 ((size_system f la).solar_pv_kw + (size_system f la).generator_kw) := rfl

lemma size_system_renewable (f : FacilityInput) (la : LoadAnalysis) :
    (size_system f la).renewable_fraction
      = roundDec 3 (if 0 < (size_system f la).solar_pv_kw + (size_system f la).generator_kw
          then roundDec 3 ((size_system f la).solar_pv_kw
            / ((size_system f la).solar_pv_kw + (size_system f la).generator_kw))
          else 0) := rfl

lemma size_system_coverage (f : FacilityInput) (la : LoadAnalysis) :
    (size_system f la).critical_load_coverage
      = roundDec 3 (if 0 < la.critical_load_kw
          then min 1 (((size_system f la).battery_kw + (size_system f la).generator_kw)
            / la.critical_load_kw)
          else 1) := rfl

lemma estimate_costs_solar (d : MicrogridDesign) :
    (estimate_costs d).solar_pv_cost = roundDec 2 (d.solar_pv_kw * 1551) := rfl

lemma estimate_costs_battery (d : MicrogridDesign) :
    (estimate_costs d).battery_cost = roundDec 2 (d.battery_kwh * 485) := rfl

lemma estimate_costs_total (d : MicrogridDesign) :
    (estimate_costs d).total_capital_cost
      = roundDec 2 (equipment_cost d + equipment_cost d * 0.15 + equipment_cost d * 0.20) := rfl

lemma estimate_costs_annual_om (d : MicrogridDesign) :
    (estimate_costs d).annual_om_cost
      = roundDec 2 ((equipment_cost d + equipment_cost d * 0.15 + equipment_cost d * 0.20)
          * 0.015) := rfl

lemma estimate_costs_cost_per_kw (d : MicrogridDesign) :
    (estimate_costs d).cost_per_kw
      = roundDec 2 (if 0 < d.solar_pv_kw + d.generator_kw
          then (equipment_cost d + equipment_cost d * 0.15 + equipment_cost d * 0.20)
            / (d.solar_pv_kw + d.generator_kw)
          else 0) := rfl

lemma analyze_financials_payback (f : FacilityInput) (d : MicrogridDesign) (c : CostEstimate) :
    (analyze_financials f d c).simple_payback_years = roundDec 1 (simple_payback d c) := rfl

lemma analyze_financials_net (f : FacilityInput) (d : MicrogridDesign) (c : CostEstimate) :
    (analyze_financials f d c).net_cost_after_incentives = roundDec 2 (net_cost c) := rfl

lemma analyze_financials_irr (f : FacilityInput) (d : MicrogridDesign) (c : CostEstimate) :
    (analyze_financials f d c).irr
      = roundDec 2 ((if 0 < net_cost c then net_annual_savings d c / net_cost c else 0) * 100) :=
  rfl

lemma assess_reliability_improvement (f : FacilityInput) (d : MicrogridDesign)
    (la : LoadAnalysis) :
    (assess_reliability f d la).reliability_improvement_percent
      = roundDec 1 (min (if expected_outage_hours ≤ total_backup_hours d la then 95
          else total_backup_hours d la / expected_outage_hours * 100) 99) := rfl

lemma assess_reliability_avoided (f : FacilityInput) (d : MicrogridDesign)
    (la : LoadAnalysis) :
    (assess_reliability f d la).avoided_outage_cost
      = roundDec 2 (la.critical_load_kw * expected_outage_hours
          * interruption_costs (str_lower f.facility_type)
          * (d.critical_load_coverage * 100 / 100)) := rfl

/-! ## Nonnegativity of the derived quantities -/

lemma average_demand_nonneg (f : FacilityInput) (ha : 0 ≤ f.annual_consumption_kwh) :
    0 ≤ (analyze_load f).average_demand_kw := by
  rw [analyze_load_average]
  exact roundDec_nonneg _ _ (div_nonneg ha (by norm_num))

lemma critical_load_nonneg (f : FacilityInput) (hp : 0 ≤ f.peak_demand_kw)
    (hc : 0 ≤ f.critical_load_percent) : 0 ≤ (analyze_load f).critical_load_kw := by
  rw [analyze_load_critical]
  exact roundDec_nonneg _ _ (mul_nonneg hp (div_nonneg hc (by norm_num)))

lemma backup_load_nonneg (f : FacilityInput) (hp : 0 ≤ f.peak_demand_kw)
    (hc : 0 ≤ f.critical_load_percent) (he : 0 ≤ f.essential_load_percent) :
    0 ≤ (analyze_load f).backup_load_kw := by
  rw [analyze_load_backup]
  exact roundDec_nonneg _ _ (add_nonneg (mul_nonneg hp (div_nonneg hc (by norm_num)))
    (mul_nonneg hp (div_nonneg he (by norm_num))))

lemma solar_pv_nonneg (f : FacilityInput) (la : LoadAnalysis)
    (havg : 0 ≤ la.average_demand_kw) (hp : 0 ≤ f.peak_demand_kw) :
    0 ≤ (size_system f la).solar_pv_kw := by
  rw [size_system_solar]
  split_ifs
  · exact le_min (roundDec_nonneg _ _ (by positivity)) (by positivity)
  · exact le_refl 0

lemma battery_kw_nonneg (f : FacilityInput) (la : LoadAnalysis)
    (hb : 0 ≤ la.backup_load_kw) : 0 ≤ (size_system f la).battery_kw := by
  rw [size_system_battery_kw]
  split_ifs
  · exact roundDec_nonneg _ _ (by positivity)
  · exact le_refl 0

lemma battery_kwh_nonneg (f : FacilityInput) (la : LoadAnalysis)
    (hb : 0 ≤ la.backup_load_kw) (hd : 0 ≤ f.backup_duration_hours) :
    0 ≤ (size_system f la).battery_kwh := by
  rw [size_system_battery_kwh]
  split_ifs
  · exact roundDec_nonneg _ _
      (div_nonneg (mul_nonneg hb (le_min (by norm_num) hd)) (by norm_num))
  · exact le_refl 0

lemma generator_kw_nonneg (f : FacilityInput) (la : LoadAnalysis)
    (hb : 0 ≤ la.backup_load_kw) : 0 ≤ (size_system f la).generator_kw := by
  rw [size_system_generator]
  split_ifs
  · exact roundDec_nonneg _ _ (by positivity)
  · exact le_refl 0

lemma inverter_kw_nonneg (f : FacilityInput) (la : LoadAnalysis)
    (hb : 0 ≤ la.backup_load_kw) : 0 ≤ (size_system f la).inverter_kw := by
  rw [size_system_inverter]
  refine roundDec_nonneg _ _ (mul_nonneg ?_ (by norm_num))
  exact le_trans hb (le_max_right _ _)

lemma total_generation_nonneg (f : FacilityInput) (la : LoadAnalysis)
    (havg : 0 ≤ la.average_demand_kw) (hp : 0 ≤ f.peak_demand_kw)
    (hb : 0 ≤ la.backup_load_kw) : 0 ≤ (size_system f la).total_generation_kw := by
  rw [size_system_total]
  exact roundDec_nonneg _ _
    (add_nonneg (solar_pv_nonneg f la havg hp) (generator_kw_nonneg f la hb))

lemma renewable_fraction_nonneg (f : FacilityInput) (la : LoadAnalysis)
    (havg : 0 ≤ la.average_demand_kw) (hp : 0 ≤ f.peak_demand_kw) :
    0 ≤ (size_system f la).renewable_fraction := by
  rw [size_system_renewable]
  apply roundDec_nonneg
  split_ifs with h
  · exact roundDec_nonneg _ _ (div_nonneg (solar_pv_nonneg f la havg hp) (le_of_lt h))
  · exact le_refl 0

lemma coverage_nonneg (f : FacilityInput) (la : LoadAnalysis)
    (hb : 0 ≤ la.backup_load_kw) : 0 ≤ (size_system f la).critical_load_coverage := by
  rw [size_system_coverage]
  apply roundDec_nonneg
  split_ifs with h
  · exact le_min (by norm_num)
      (div_nonneg (add_nonneg (battery_kw_nonneg f la hb) (generator_kw_nonneg f la hb))
        (le_of_lt h))
  · norm_num

lemma coverage_le_one (f : FacilityInput) (la : LoadAnalysis) :
    (size_system f la).critical_load_coverage ≤ 1 := by
  rw [size_system_coverage]
  apply roundDec_le_one
  split_ifs with h
  · exact min_le_left _ _
  · exact le_refl 1

/-! ## Claim theorems -/

/-- C6: for every valid `FacilityInput`, every quantity in the
`MicrogridDesign` produced by the System Sizer is non-negative, and
`solar_pv_kw`, `battery_kw`, `battery_kwh`, `generator_kw` are exactly
0 whenever the corresponding inclusion flag is false. -/
theorem design_nonneg_and_flag_zero (f : FacilityInput) (hv : f.Valid) :
    0 ≤ (size_system f (analyze_load f)).solar_pv_kw
    ∧ 0 ≤ (size_system f (analyze_load f)).battery_kw
    ∧ 0 ≤ (size_system f (analyze_load f)).battery_kwh
    ∧ 0 ≤ (size_system f (analyze_load f)).generator_kw
    ∧ 0 ≤ (size_system f (analyze_load f)).inverter_kw
    ∧ 0 ≤ (size_system f (analyze_load f)).total_generation_kw
    ∧ 0 ≤ (size_system f (analyze_load f)).renewable_fraction
    ∧ 0 ≤ (size_system f (analyze_load f)).critical_load_coverage
    ∧ (f.include_solar = false → (size_system f (analyze_load f)).solar_pv_kw = 0)
    ∧ (f.include_battery = false → (size_system f (analyze_load f)).battery_kw = 0
        ∧ (size_system f (analyze_load f)).battery_kwh = 0)
    ∧ (f.include_generator = false → (size_system f (analyze_load f)).generator_kw = 0) := by
  obtain ⟨hp, ha, hc0, hc1, he0, he1, hd⟩ := hv
  have havg := average_demand_nonneg f ha.le
  have hb := backup_load_nonneg f hp.le hc0 he0
  refine ⟨solar_pv_nonneg f _ havg hp.le, battery_kw_nonneg f _ hb,
    battery_kwh_nonneg f _ hb hd.le, generator_kw_nonneg f _ hb,
    inverter_kw_nonneg f _ hb, total_generation_nonneg f _ havg hp.le hb,
    renewable_fraction_nonneg f _ havg hp.le, coverage_nonneg f _ hb, ?_, ?_, ?_⟩
  · intro h
    rw [size_system_solar, h]
    simp
  · intro h
    rw [size_system_battery_kw, size_system_battery_kwh, h]
    simp
  · intro h
    rw [size_system_generator, h]
    simp

/-- Input used to witness C6 (peak 500 kW, 2 GWh/yr, defaults). -/
def fC6w : FacilityInput :=
  { facility_name := "Plant", facility_type := "commercial", location := "baton_rouge",
    peak_demand_kw := 500, annual_consumption_kwh := 2000000, critical_load_percent := 30,
    essential_load_percent := 40, backup_duration_hours := 24, grid_connected := true,
    include_solar := true, include_battery := true, include_generator := true }

/-- Witness for C6 at a concrete valid input. -/
theorem design_nonneg_and_flag_zero_witness :
    fC6w.Valid ∧ 0 ≤ (size_system fC6w (analyze_load fC6w)).solar_pv_kw :=
  ⟨by decide, (design_nonneg_and_flag_zero fC6w (by decide)).1⟩

/-- C7: for every valid `FacilityInput`, the `critical_load_coverage`
of the design lies in `[0, 1]`, and when `critical_load_percent = 0`
it is exactly 1 by the guarded branch, with no division by zero. -/
theorem coverage_in_unit_interval (f : FacilityInput) (hv : f.Valid) :
    0 ≤ (size_system f (analyze_load f)).critical_load_coverage
    ∧ (size_system f (analyze_load f)).critical_load_coverage ≤ 1
    ∧ (f.critical_load_percent = 0
        → (size_system f (analyze_load f)).critical_load_coverage = 1) := by
  obtain ⟨hp, ha, hc0, hc1, he0, he1, hd⟩ := hv
  have hb := backup_load_nonneg f hp.le hc0 he0
  refine ⟨coverage_nonneg f _ hb, coverage_le_one f _, ?_⟩
  intro h
  have hcrit : (analyze_load f).critical_load_kw = 0 := by
    rw [analyze_load_critical, h]
    rw [show f.peak_demand_kw * ((0 : ℚ) / 100) = 0 by ring]
    exact roundDec_zero 2
  rw [size_system_coverage, hcrit, if_neg (lt_irrefl 0)]
  exact roundDec_one 3

/-- Input used to witness C7 (critical percentage 0). -/
def fC7w : FacilityInput :=
  { facility_name := "Depot", facility_type := "industrial", location := "baton_rouge",
    peak_demand_kw := 100, annual_consumption_kwh := 100000, critical_load_percent := 0,
    essential_load_percent := 40, backup_duration_hours := 12, grid_connected := true,
    include_solar := true, include_battery := true, include_generator := true }

/-- Witness for C7 at a concrete input with `critical_load_percent = 0`. -/
theorem coverage_in_unit_interval_witness :
    fC7w.Valid ∧ fC7w.critical_load_percent = 0
      ∧ (size_system fC7w (analyze_load fC7w)).critical_load_coverage = 1 :=
  ⟨by decide, rfl, (coverage_in_unit_interval fC7w (by decide)).2.2 rfl⟩

/-- C8: for every valid `FacilityInput`, the reliability improvement is
a flat 95 when `total_backup_hours ≥ expected_outage_hours`, otherwise
`(total_backup_hours / expected_outage_hours) * 100`, with the final
result capped at 99; consequently it lies in `[0, 99]`. -/
theorem reliability_improvement_formula_and_range (f : FacilityInput) (hv : f.Valid) :
    (assess_reliability f (size_system f (analyze_load f))
        (analyze_load f)).reliability_improvement_percent
      = roundDec 1 (min (if expected_outage_hours
            ≤ total_backup_hours (size_system f (analyze_load f)) (analyze_load f) then 95
          else total_backup_hours (size_system f (analyze_load f)) (analyze_load f)
            / expected_outage_hours * 100) 99)
    ∧ 0 ≤ (assess_reliability f (size_system f (analyze_load f))
        (analyze_load f)).reliability_improvement_percent
    ∧ (assess_reliability f (size_system f (analyze_load f))
        (analyze_load f)).reliability_improvement_percent ≤ 99 := by
  obtain ⟨hp, ha, hc0, hc1, he0, he1, hd⟩ := hv
  have hb := backup_load_nonneg f hp.le hc0 he0
  have hkwh := battery_kwh_nonneg f (analyze_load f) hb hd.le
  have htb : 0 ≤ total_backup_hours (size_system f (analyze_load f)) (analyze_load f) := by
    unfold total_backup_hours
    refine add_nonneg ?_ ?_
    · split_ifs with h
      · exact div_nonneg hkwh h.le
      · exact le_refl 0
    · split_ifs <;> norm_num
  refine ⟨assess_reliability_improvement f _ _, ?_, ?_⟩
  · rw [assess_reliability_improvement]
    apply roundDec_nonneg
    refine le_min ?_ (by norm_num)
    split_ifs with h
    · norm_num
    · have hpos : (0 : ℚ) < expected_outage_hours := by
        unfold expected_outage_hours
        norm_num
      positivity
  · rw [assess_reliability_improvement]
    have h99 := roundDec_le_intCast 1 (min (if expected_outage_hours
        ≤ total_backup_hours (size_system f (analyze_load f)) (analyze_load f) then 95
      else total_backup_hours (size_system f (analyze_load f)) (analyze_load f)
        / expected_outage_hours * 100) 99) 99 (by exact_mod_cast min_le_right _ _)
    exact_mod_cast h99

/-- Input used to witness C8. -/
def fC8w : FacilityInput :=
  { facility_name := "Mill", facility_type := "industrial", location := "baton_rouge",
    peak_demand_kw := 250, annual_consumption_kwh := 900000, critical_load_percent := 20,
    essential_load_percent := 30, backup_duration_hours := 8, grid_connected := true,
    include_solar := true, include_battery := true, include_generator := false }

/-- Witness for C8 at a concrete valid input. -/
theorem reliability_improvement_formula_and_range_witness :
    fC8w.Valid ∧ (assess_reliability fC8w (size_system fC8w (analyze_load fC8w))
      (analyze_load fC8w)).reliability_improvement_percent ≤ 99 :=
  ⟨by decide, (reliability_improvement_formula_and_range fC8w (by decide)).2.2⟩

/-- The only failure point of the modelled pipeline: the battery
recommendation divides `battery_kwh / battery_kw` under the guard
`battery_kwh > 0` alone. -/
lemma generate_recommendations_eq_none_iff (f : FacilityInput) (d : MicrogridDesign)
    (c : CostEstimate) (fin : FinancialAnalysis) (r : ReliabilityAssessment) :
    generate_recommendations f d c fin r = none
      ↔ (0 < d.battery_kwh ∧ d.battery_kw = 0) := by
  by_cases h1 : 0 < d.battery_kwh
  · by_cases h2 : d.battery_kw = 0
    · simp [generate_recommendations, h1, h2]
    · simp [generate_recommendations, h1, h2]
  · simp [generate_recommendations, h1]

/-- The `/analyze` pipeline fails exactly when the sized design has
positive battery energy but zero battery power. -/
lemma analyze_microgrid_eq_none_iff (f : FacilityInput) :
    analyze_microgrid f = none
      ↔ (0 < (size_system f (analyze_load f)).battery_kwh
          ∧ (size_system f (analyze_load f)).battery_kw = 0) := by
  simp only [analyze_microgrid]
  rw [Option.map_eq_none']
  exact generate_recommendations_eq_none_iff _ _ _ _ _

/-- A facility with all three inclusion flags false (used against C1). -/
def fC1 : FacilityInput :=
  { facility_name := "Office", facility_type := "commercial", location := "baton_rouge",
    peak_demand_kw := 100, annual_consumption_kwh := 500000, critical_load_percent := 30,
    essential_load_percent := 40, backup_duration_hours := 24, grid_connected := true,
    include_solar := false, include_battery := false, include_generator := false }

/-- C1, counterexample: with all three inclusion flags false the design
is not all-zero — the inverter is still sized from the backup load
(77 kW here), the critical-load coverage is 0 (not 1), and the total
capital cost is 15592.5 $ (not 0). -/
theorem flags_off_not_all_zero :
    fC1.include_solar = false ∧ fC1.include_battery = false
    ∧ fC1.include_generator = false ∧ fC1.Valid
    ∧ (size_system fC1 (analyze_load fC1)).inverter_kw = 77
    ∧ (size_system fC1 (analyze_load fC1)).critical_load_coverage = 0
    ∧ (estimate_costs (size_system fC1 (analyze_load fC1))).total_capital_cost = 15592.5
    ∧ ¬((size_system fC1 (analyze_load fC1)).inverter_kw = 0
        ∧ (size_system fC1 (analyze_load fC1)).critical_load_coverage = 1
        ∧ (estimate_costs (size_system fC1 (analyze_load fC1))).total_capital_cost = 0) := by
  have hback : (analyze_load fC1).backup_load_kw = 70 := by
    rw [analyze_load_backup, show fC1.peak_demand_kw * (fC1.critical_load_percent / 100)
        + fC1.peak_demand_kw * (fC1.essential_load_percent / 100) = 70 from by norm_num [fC1]]
    exact roundDec_eq_self 2 70 7000 (by norm_num)
  have hcrit : (analyze_load fC1).critical_load_kw = 30 := by
    rw [analyze_load_critical,
      show fC1.peak_demand_kw * (fC1.critical_load_percent / 100) = 30 from by norm_num [fC1]]
    exact roundDec_eq_self 2 30 3000 (by norm_num)
  have hsol : (size_system fC1 (analyze_load fC1)).solar_pv_kw = 0 := by
    rw [size_system_solar]
    simp [fC1]
  have hbkw : (size_system fC1 (analyze_load fC1)).battery_kw = 0 := by
    rw [size_system_battery_kw]
    simp [fC1]
  have hkwh : (size_system fC1 (analyze_load fC1)).battery_kwh = 0 := by
    rw [size_system_battery_kwh]
    simp [fC1]
  have hgen : (size_system fC1 (analyze_load fC1)).generator_kw = 0 := by
    rw [size_system_generator]
    simp [fC1]
  have hinv : (size_system fC1 (analyze_load fC1)).inverter_kw = 77 := by
    rw [size_system_inverter, hsol, hbkw, hback]
    have hm : max (max (0 : ℚ) 0) 70 = 70 := by
      rw [max_self]
      exact max_eq_right (by norm_num)
    rw [hm, show (70 : ℚ) * 1.1 = 77 from by norm_num]
    exact roundDec_eq_self 1 77 770 (by norm_num)
  have hcov : (size_system fC1 (analyze_load fC1)).critical_load_coverage = 0 := by
    rw [size_system_coverage, hbkw, hgen, hcrit, if_pos (by norm_num : (0 : ℚ) < 30)]
    rw [show ((0 : ℚ) + 0) / 30 = 0 from by norm_num,
      min_eq_right (by norm_num : (0 : ℚ) ≤ 1)]
    exact roundDec_zero 3
  have htot : (estimate_costs (size_system fC1 (analyze_load fC1))).total_capital_cost
      = 15592.5 := by
    rw [estimate_costs_total]
    have hE : equipment_cost (size_system fC1 (analyze_load fC1)) = 11550 := by
      unfold equipment_cost
      rw [hsol, hkwh, hgen, hinv]
      norm_num
    rw [hE, show (11550 : ℚ) + 11550 * 0.15 + 11550 * 0.20 = 15592.5 from by norm_num]
    exact roundDec_eq_self 2 15592.5 1559250 (by norm_num)
  refine ⟨rfl, rfl, rfl, by decide, hinv, hcov, htot, ?_⟩
  rw [hinv]
  norm_num

/-- C1, amended: with all three inclusion flags false, solar, battery
and generator quantities, the renewable fraction, the total generation
and the cost per kW are all 0 and no division-by-zero is raised; but
the inverter is still `round(1.1 * backup_load, 1)`, the coverage is 0
when the critical load is positive (1 only when it is zero), and the
total capital cost is the inverter cost grossed up by 35 %. -/
theorem flags_off_design (f : FacilityInput) (hv : f.Valid)
    (hs : f.include_solar = false) (hb : f.include_battery = false)
    (hg : f.include_generator = false) :
    (size_system f (analyze_load f)).solar_pv_kw = 0
    ∧ (size_system f (analyze_load f)).battery_kw = 0
    ∧ (size_system f (analyze_load f)).battery_kwh = 0
    ∧ (size_system f (analyze_load f)).generator_kw = 0
    ∧ (size_system f (analyze_load f)).total_generation_kw = 0
    ∧ (size_system f (analyze_load f)).renewable_fraction = 0
    ∧ (size_system f (analyze_load f)).inverter_kw
        = roundDec 1 ((analyze_load f).backup_load_kw * 1.1)
    ∧ (size_system f (analyze_load f)).critical_load_coverage
        = (if 0 < (analyze_load f).critical_load_kw then 0 else 1)
    ∧ (estimate_costs (size_system f (analyze_load f))).cost_per_kw = 0
    ∧ (estimate_costs (size_system f (analyze_load f))).total_capital_cost
        = roundDec 2 ((size_system f (analyze_load f)).inverter_kw * 150 * 1.35)
    ∧ analyze_microgrid f ≠ none := by
  obtain ⟨hp, ha, hc0, hc1, he0, he1, hd⟩ := hv
  have hback := backup_load_nonneg f hp.le hc0 he0
  have hsol : (size_system f (analyze_load f)).solar_pv_kw = 0 := by
    rw [size_system_solar, hs]
    simp
  have hbkw : (size_system f (analyze_load f)).battery_kw = 0 := by
    rw [size_system_battery_kw, hb]
    simp
  have hkwh : (size_system f (analyze_load f)).battery_kwh = 0 := by
    rw [size_system_battery_kwh, hb]
    simp
  have hgen : (size_system f (analyze_load f)).generator_kw = 0 := by
    rw [size_system_generator, hg]
    simp
  refine ⟨hsol, hbkw, hkwh, hgen, ?_, ?_, ?_, ?_, ?_, ?_, ?_⟩
  · rw [size_system_total, hsol, hgen, zero_add]
    exact roundDec_zero 1
  · rw [size_system_renewable, hsol, hgen, zero_add]
    rw [if_neg (lt_irrefl 0), roundDec_zero]
  · rw [size_system_inverter, hsol, hbkw, max_self, max_eq_right hback]
  · rw [size_system_coverage, hbkw, hgen, zero_add]
    split_ifs with h
    · rw [zero_div, min_eq_right (by norm_num : (0 : ℚ) ≤ 1), roundDec_zero]
    · exact roundDec_one 3
  · rw [estimate_costs_cost_per_kw, hsol, hgen, zero_add]
    rw [if_neg (lt_irrefl 0), roundDec_zero]
  · rw [estimate_costs_total]
    have hE : equipment_cost (size_system f (analyze_load f))
        = (size_system f (analyze_load f)).inverter_kw * 150 := by
      unfold equipment_cost
      rw [hsol, hkwh, hgen]
      ring
    rw [hE]
    congr 1
    ring
  · rw [Ne, analyze_microgrid_eq_none_iff, hkwh]
    simp

/-- Witness for the amended C1 at the concrete flags-off input. -/
theorem flags_off_design_witness :
    fC1.Valid ∧ (size_system fC1 (analyze_load fC1)).solar_pv_kw = 0 :=
  ⟨by decide, (flags_off_design fC1 (by decide) rfl rfl rfl).1⟩

lemma analyze_load_spec_critical (f : FacilityInput) :
    (analyze_load_spec f).critical_load_kw
      = f.peak_demand_kw * (f.critical_load_percent / 100) := rfl

/-- C2, amended: the Load Analyzer returns its derived values already
rounded (2 decimals, 3 for the load factor) — `analyze_load` is the
field-wise rounding of the full-precision `analyze_load_spec` — and it
is these rounded values that the Sizer and Reliability Analyzer
consume, so the pipeline is not equal to the unrounded reference
pipeline. -/
theorem load_analysis_rounds_before_downstream (f : FacilityInput) :
    analyze_load f =
      { peak_demand_kw := (analyze_load_spec f).peak_demand_kw
        average_demand_kw := roundDec 2 (analyze_load_spec f).average_demand_kw
        critical_load_kw := roundDec 2 (analyze_load_spec f).critical_load_kw
        essential_load_kw := roundDec 2 (analyze_load_spec f).essential_load_kw
        non_critical_load_kw := roundDec 2 (analyze_load_spec f).non_critical_load_kw
        backup_load_kw := roundDec 2 (analyze_load_spec f).backup_load_kw
        load_factor := roundDec 3 (analyze_load_spec f).load_factor
        annual_consumption_kwh := (analyze_load_spec f).annual_consumption_kwh } := rfl

/-- A facility whose critical load (0.003 kW) rounds to zero inside the
Load Analyzer (used against C2). -/
def fC2 : FacilityInput :=
  { facility_name := "Kiosk", facility_type := "commercial", location := "baton_rouge",
    peak_demand_kw := 1, annual_consumption_kwh := 8760, critical_load_percent := 0.3,
    essential_load_percent := 0, backup_duration_hours := 24, grid_connected := true,
    include_solar := false, include_battery := false, include_generator := false }

/-- C2, counterexample: the code pipeline (which feeds the Sizer the
rounded `LoadAnalysis`) reports critical-load coverage 1, while the
reference pipeline carrying unrounded values reports 0, so the two
pipelines are not equal. -/
theorem rounded_pipeline_diverges :
    (size_system fC2 (analyze_load fC2)).critical_load_coverage = 1
    ∧ (size_system fC2 (analyze_load_spec fC2)).critical_load_coverage = 0
    ∧ size_system fC2 (analyze_load fC2) ≠ size_system fC2 (analyze_load_spec fC2) := by
  have hcrit : (analyze_load fC2).critical_load_kw = 0 := by
    rw [analyze_load_critical,
      show fC2.peak_demand_kw * (fC2.critical_load_percent / 100) = 0.003 from by
        norm_num [fC2],
      roundDec_eq_low 2 0.003 0 (by norm_num) (by norm_num)]
    norm_num
  have hcrit2 : (analyze_load_spec fC2).critical_load_kw = 0.003 := by
    rw [analyze_load_spec_critical]
    norm_num [fC2]
  have h1 : (size_system fC2 (analyze_load fC2)).critical_load_coverage = 1 := by
    rw [size_system_coverage, hcrit, if_neg (lt_irrefl 0)]
    exact roundDec_one 3
  have hbkw : (size_system fC2 (analyze_load_spec fC2)).battery_kw = 0 := by
    rw [size_system_battery_kw]
    simp [fC2]
  have hgen : (size_system fC2 (analyze_load_spec fC2)).generator_kw = 0 := by
    rw [size_system_generator]
    simp [fC2]
  have h2 : (size_system fC2 (analyze_load_spec fC2)).critical_load_coverage = 0 := by
    rw [size_system_coverage, hbkw, hgen, hcrit2, if_pos (by norm_num : (0 : ℚ) < 0.003)]
    rw [show ((0 : ℚ) + 0) / 0.003 = 0 from by norm_num,
      min_eq_right (by norm_num : (0 : ℚ) ≤ 1)]
    exact roundDec_zero 3
  refine ⟨h1, h2, ?_⟩
  intro h
  have hc := congrArg MicrogridDesign.critical_load_coverage h
  rw [h1, h2] at hc
  norm_num at hc

/-- A facility whose rounded load breakdown does not sum back to the
peak demand (used against C4). -/
def fC4 : FacilityInput :=
  { facility_name := "Shed", facility_type := "commercial", location := "baton_rouge",
    peak_demand_kw := 1, annual_consumption_kwh := 1000, critical_load_percent := 0.3,
    essential_load_percent := 0.3, backup_duration_hours := 24, grid_connected := true,
    include_solar := true, include_battery := true, include_generator := true }

/-- C4, counterexample: the `LoadAnalysis` actually returned holds
values rounded to 2 decimals, and at peak 1 kW with 0.3 % critical and
0.3 % essential they sum to 0.99 ≠ 1 = `peak_demand_kw`. -/
theorem load_sum_rounded_ne_peak :
    (analyze_load fC4).critical_load_kw = 0
    ∧ (analyze_load fC4).essential_load_kw = 0
    ∧ (analyze_load fC4).non_critical_load_kw = 0.99
    ∧ fC4.peak_demand_kw = 1
    ∧ (analyze_load fC4).critical_load_kw + (analyze_load fC4).essential_load_kw
        + (analyze_load fC4).non_critical_load_kw ≠ fC4.peak_demand_kw := by
  have hc : (analyze_load fC4).critical_load_kw = 0 := by
    rw [analyze_load_critical,
      show fC4.peak_demand_kw * (fC4.critical_load_percent / 100) = 0.003 from by
        norm_num [fC4],
      roundDec_eq_low 2 0.003 0 (by norm_num) (by norm_num)]
    norm_num
  have he : (analyze_load fC4).essential_load_kw = 0 := by
    rw [analyze_load_essential,
      show fC4.peak_demand_kw * (fC4.essential_load_percent / 100) = 0.003 from by
        norm_num [fC4],
      roundDec_eq_low 2 0.003 0 (by norm_num) (by norm_num)]
    norm_num
  have hn : (analyze_load fC4).non_critical_load_kw = 0.99 := by
    rw [analyze_load_non_critical,
      show fC4.peak_demand_kw - fC4.peak_demand_kw * (fC4.critical_load_percent / 100)
          - fC4.peak_demand_kw * (fC4.essential_load_percent / 100) = 0.994 from by
        norm_num [fC4],
      roundDec_eq_low 2 0.994 99 (by norm_num) (by norm_num)]
    norm_num
  refine ⟨hc, he, hn, rfl, ?_⟩
  rw [hc, he, hn]
  norm_num [fC4]

/-- C4, amended: the full-precision critical, essential and
non-critical loads sum exactly to the peak demand (the reference
`analyze_load_spec` satisfies the identity), while the rounded fields
the Load Analyzer actually returns sum to within 3/200 of it. -/
theorem load_sum_exact_unrounded_and_bounded (f : FacilityInput) :
    (analyze_load_spec f).critical_load_kw + (analyze_load_spec f).essential_load_kw
        + (analyze_load_spec f).non_critical_load_kw = f.peak_demand_kw
    ∧ |(analyze_load f).critical_load_kw + (analyze_load f).essential_load_kw
        + (analyze_load f).non_critical_load_kw - f.peak_demand_kw| ≤ 3 / 200 := by
  constructor
  · show f.peak_demand_kw * (f.critical_load_percent / 100)
        + f.peak_demand_kw * (f.essential_load_percent / 100)
        + (f.peak_demand_kw - f.peak_demand_kw * (f.critical_load_percent / 100)
           - f.peak_demand_kw * (f.essential_load_percent / 100)) = f.peak_demand_kw
    ring
  · have h1 := abs_roundDec_sub_le 2 (f.peak_demand_kw * (f.critical_load_percent / 100))
    have h2 := abs_roundDec_sub_le 2 (f.peak_demand_kw * (f.essential_load_percent / 100))
    have h3 := abs_roundDec_sub_le 2 (f.peak_demand_kw
      - f.peak_demand_kw * (f.critical_load_percent / 100)
      - f.peak_demand_kw * (f.essential_load_percent / 100))
    rw [abs_le] at h1 h2 h3
    norm_num at h1 h2 h3
    rw [analyze_load_critical, analyze_load_essential, analyze_load_non_critical, abs_le]
    constructor <;> linarith

/-- A facility typed "Hospital" — not literally a key of the
interruption-cost table (used against C9). -/
def fC9 : FacilityInput :=
  { facility_name := "Clinic", facility_type := "Hospital", location := "baton_rouge",
    peak_demand_kw := 100, annual_consumption_kwh := 500000, critical_load_percent := 30,
    essential_load_percent := 40, backup_duration_hours := 24, grid_connected := true,
    include_solar := true, include_battery := true, include_generator := true }

/-- C9, counterexample: `"Hospital"` is not a key of the
interruption-cost table, yet the avoided outage cost is computed with
the hospital rate of 100 $/kWh (32625 $), not the default 25 $/kWh
(8156.25 $) — because the code looks up the lowercased type. -/
theorem interruption_cost_case_sensitive :
    fC9.facility_type ∉ (["commercial", "industrial", "residential", "hospital"] : List String)
    ∧ (assess_reliability fC9 (size_system fC9 (analyze_load fC9))
        (analyze_load fC9)).avoided_outage_cost = 32625
    ∧ (32625 : ℚ) ≠ roundDec 2 ((analyze_load fC9).critical_load_kw * expected_outage_hours
        * 25 * ((size_system fC9 (analyze_load fC9)).critical_load_coverage * 100 / 100)) := by
  have hcrit : (analyze_load fC9).critical_load_kw = 30 := by
    rw [analyze_load_critical,
      show fC9.peak_demand_kw * (fC9.critical_load_percent / 100) = 30 from by norm_num [fC9]]
    exact roundDec_eq_self 2 30 3000 (by norm_num)
  have hback : (analyze_load fC9).backup_load_kw = 70 := by
    rw [analyze_load_backup, show fC9.peak_demand_kw * (fC9.critical_load_percent / 100)
        + fC9.peak_demand_kw * (fC9.essential_load_percent / 100) = 70 from by norm_num [fC9]]
    exact roundDec_eq_self 2 70 7000 (by norm_num)
  have hbkw : (size_system fC9 (analyze_load fC9)).battery_kw = 77 := by
    rw [size_system_battery_kw, if_pos (show fC9.include_battery = true from rfl), hback,
      show (70 : ℚ) * 1.1 = 77 from by norm_num]
    exact roundDec_eq_self 1 77 770 (by norm_num)
  have hgen : (size_system fC9 (analyze_load fC9)).generator_kw = 84 := by
    rw [size_system_generator, if_pos (show fC9.include_generator = true from rfl), hback,
      show (70 : ℚ) * 1.2 = 84 from by norm_num]
    exact roundDec_eq_self 1 84 840 (by norm_num)
  have hcov : (size_system fC9 (analyze_load fC9)).critical_load_coverage = 1 := by
    rw [size_system_coverage, hbkw, hgen, hcrit, if_pos (by norm_num : (0 : ℚ) < 30),
      min_eq_left (by norm_num : (1 : ℚ) ≤ (77 + 84) / 30)]
    exact roundDec_one 3
  have hic : interruption_costs (str_lower fC9.facility_type) = 100 := by decide
  refine ⟨by decide, ?_, ?_⟩
  · rw [assess_reliability_avoided, hcrit, hcov, hic,
      show (30 : ℚ) * expected_outage_hours * 100 * (1 * 100 / 100) = 32625 from by
        norm_num [expected_outage_hours]]
    exact roundDec_eq_self 2 32625 3262500 (by norm_num)
  · rw [hcrit, hcov,
      show (30 : ℚ) * expected_outage_hours * 25 * (1 * 100 / 100) = 8156.25 from by
        norm_num [expected_outage_hours],
      roundDec_eq_self 2 8156.25 815625 (by norm_num)]
    norm_num

/-- C9, amended: the interruption-cost lookup key is the lowercased
facility type; whenever that lowercased type is not a key of the
table, the avoided outage cost is computed with the default rate of
25 $/kWh (recognized lowercased types use the table's per-type rate). -/
theorem interruption_cost_lowercased_fallback (f : FacilityInput) (d : MicrogridDesign)
    (la : LoadAnalysis)
    (h : str_lower f.facility_type
      ∉ (["commercial", "industrial", "residential", "hospital"] : List String)) :
    (assess_reliability f d la).avoided_outage_cost
      = roundDec 2 (la.critical_load_kw * expected_outage_hours * 25
          * (d.critical_load_coverage * 100 / 100)) := by
  have h25 : interruption_costs (str_lower f.facility_type) = 25 := by
    simp only [List.mem_cons, List.not_mem_nil, or_false, not_or] at h
    obtain ⟨h1, h2, h3, h4⟩ := h
    unfold interruption_costs
    rw [if_neg h1, if_neg h2, if_neg h3, if_neg h4]
  rw [assess_reliability_avoided, h25]

/-- A facility typed "school", lowercased still not a table key (used
to witness the amended C9). -/
def fC9w : FacilityInput :=
  { facility_name := "School", facility_type := "school", location := "baton_rouge",
    peak_demand_kw := 150, annual_consumption_kwh := 400000, critical_load_percent := 25,
    essential_load_percent := 35, backup_duration_hours := 24, grid_connected := true,
    include_solar := true, include_battery := true, include_generator := true }

/-- Witness for the amended C9 at a concrete unrecognized type. -/
theorem interruption_cost_lowercased_fallback_witness :
    str_lower fC9w.facility_type
      ∉ (["commercial", "industrial", "residential", "hospital"] : List String)
    ∧ (assess_reliability fC9w (size_system fC9w (analyze_load fC9w))
        (analyze_load fC9w)).avoided_outage_cost
      = roundDec 2 ((analyze_load fC9w).critical_load_kw * expected_outage_hours * 25
          * ((size_system fC9w (analyze_load fC9w)).critical_load_coverage * 100 / 100)) :=
  ⟨by decide, interruption_cost_lowercased_fallback fC9w _ _ (by decide)⟩

/-- A tiny battery-only facility: backup load 0.04 kW sizes a battery
of 0.2 kWh but 0.0 kW (used against C3). -/
def fC3 : FacilityInput :=
  { facility_name := "Hut", facility_type := "commercial", location := "baton_rouge",
    peak_demand_kw := 1, annual_consumption_kwh := 1000, critical_load_percent := 2,
    essential_load_percent := 2, backup_duration_hours := 24, grid_connected := true,
    include_solar := false, include_battery := true, include_generator := false }

/-- C3: at this input the sized design has `battery_kwh = 0.2 > 0` and
`battery_kw = 0`, so the battery recommendation's division
`battery_kwh / battery_kw` (guarded only by `battery_kwh > 0`) divides
by zero and the `/analyze` pipeline fails instead of returning a
defined fallback. -/
theorem battery_rec_division_by_zero :
    0 < (size_system fC3 (analyze_load fC3)).battery_kwh
    ∧ (size_system fC3 (analyze_load fC3)).battery_kw = 0
    ∧ analyze_microgrid fC3 = none := by
  have hback : (analyze_load fC3).backup_load_kw = 0.04 := by
    rw [analyze_load_backup, show fC3.peak_demand_kw * (fC3.critical_load_percent / 100)
        + fC3.peak_demand_kw * (fC3.essential_load_percent / 100) = 0.04 from by
      norm_num [fC3]]
    exact roundDec_eq_self 2 0.04 4 (by norm_num)
  have hmin : min (4 : ℚ) fC3.backup_duration_hours = 4 := by
    rw [show fC3.backup_duration_hours = 24 from rfl]
    exact min_eq_left (by norm_num)
  have hkwh : (size_system fC3 (analyze_load fC3)).battery_kwh = 0.2 := by
    rw [size_system_battery_kwh, if_pos (show fC3.include_battery = true from rfl), hback,
      hmin, show (0.04 : ℚ) * 4 / 0.85 = 16 / 85 from by norm_num,
      roundDec_eq_high 1 (16 / 85) 1 (by norm_num) (by norm_num)]
    norm_num
  have hbkw : (size_system fC3 (analyze_load fC3)).battery_kw = 0 := by
    rw [size_system_battery_kw, if_pos (show fC3.include_battery = true from rfl), hback,
      show (0.04 : ℚ) * 1.1 = 0.044 from by norm_num,
      roundDec_eq_low 1 0.044 0 (by norm_num) (by norm_num)]
    norm_num
  refine ⟨by rw [hkwh]; norm_num, hbkw, ?_⟩
  rw [analyze_microgrid_eq_none_iff]
  exact ⟨by rw [hkwh]; norm_num, hbkw⟩

/-- C5, amended: the returned `simple_payback_years` is the 1-decimal
rounding of `simple_payback`, which is 999 whenever the net annual
savings are ≤ 0 and `net_cost / net_annual_savings` when they are
positive — but the rounded quotient can itself equal 999.0 (see the
collision counterexample), so 999 is a reliable sentinel only in the
direction `net_annual_savings ≤ 0 → 999`. -/
theorem payback_branches (f : FacilityInput) (d : MicrogridDesign) (c : CostEstimate) :
    (analyze_financials f d c).simple_payback_years = roundDec 1 (simple_payback d c)
    ∧ (net_annual_savings d c ≤ 0 → simple_payback d c = 999)
    ∧ (0 < net_annual_savings d c
        → simple_payback d c = net_cost c / net_annual_savings d c) := by
  refine ⟨rfl, fun h => ?_, fun h => ?_⟩
  · unfold simple_payback
    rw [if_neg (not_lt.mpr h)]
  · unfold simple_payback
    rw [if_pos h]

/-- The facility exhibiting the payback sentinel collision (used
against C5): solar and generator on, battery off, peak 200 kW, annual
consumption 18658.8 kWh, critical 33.315 %. -/
def fC5 : FacilityInput :=
  { facility_name := "Yard", facility_type := "commercial", location := "baton_rouge",
    peak_demand_kw := 200, annual_consumption_kwh := 18658.8, critical_load_percent := 33.315,
    essential_load_percent := 0, backup_duration_hours := 24, grid_connected := true,
    include_solar := true, include_battery := false, include_generator := true }

/-- C5, counterexample: at `fC5` the net annual savings are positive
(≈ 118.49 $/yr) yet the returned `simple_payback_years` is exactly the
sentinel 999, because `net_cost / net_annual_savings ≈ 998.98` rounds
to 999.0 — so "`= 999` iff `net_annual_savings ≤ 0`" fails. -/
theorem payback_sentinel_collision :
    0 < net_annual_savings (size_system fC5 (analyze_load fC5))
        (estimate_costs (size_system fC5 (analyze_load fC5)))
    ∧ (analyze_financials fC5 (size_system fC5 (analyze_load fC5))
        (estimate_costs (size_system fC5 (analyze_load fC5)))).simple_payback_years = 999 := by
  have havg : (analyze_load fC5).average_demand_kw = 2.13 := by
    rw [analyze_load_average,
      show fC5.annual_consumption_kwh / 8760 = 2.13 from by norm_num [fC5]]
    exact roundDec_eq_self 2 2.13 213 (by norm_num)
  have hback : (analyze_load fC5).backup_load_kw = 66.63 := by
    rw [analyze_load_backup, show fC5.peak_demand_kw * (fC5.critical_load_percent / 100)
        + fC5.peak_demand_kw * (fC5.essential_load_percent / 100) = 66.63 from by
      norm_num [fC5]]
    exact roundDec_eq_self 2 66.63 6663 (by norm_num)
  have hsol : (size_system fC5 (analyze_load fC5)).solar_pv_kw = 10.3 := by
    rw [size_system_solar, if_pos (show fC5.include_solar = true from rfl), havg,
      show (2.13 : ℚ) * 1.3 / 0.269 = 2769 / 1000 / (269 / 1000) from by norm_num,
      roundDec_eq_high 1 (2769 / 1000 / (269 / 1000)) 102 (by norm_num) (by norm_num)]
    have h103 : (((102 : ℤ) : ℚ) + 1) / 10 ^ 1 = 10.3 := by
      push_cast
      norm_num
    rw [h103, min_eq_left (by norm_num [fC5] : (10.3 : ℚ) ≤ fC5.peak_demand_kw * 1.5)]
  have hbkw : (size_system fC5 (analyze_load fC5)).battery_kw = 0 := by
    rw [size_system_battery_kw]
    simp [fC5]
  have hkwh : (size_system fC5 (analyze_load fC5)).battery_kwh = 0 := by
    rw [size_system_battery_kwh]
    simp [fC5]
  have hgen : (size_system fC5 (analyze_load fC5)).generator_kw = 80 := by
    rw [size_system_generator, if_pos (show fC5.include_generator = true from rfl), hback,
      show (66.63 : ℚ) * 1.2 = 79.956 from by norm_num,
      roundDec_eq_high 1 79.956 799 (by norm_num) (by norm_num)]
    norm_num
  have hinv : (size_system fC5 (analyze_load fC5)).inverter_kw = 73.3 := by
    rw [size_system_inverter, hsol, hbkw, hback]
    have hm : max (max (10.3 : ℚ) 0) 66.63 = 66.63 := by
      rw [max_eq_left (by norm_num : (0 : ℚ) ≤ 10.3)]
      exact max_eq_right (by norm_num)
    rw [hm, show (66.63 : ℚ) * 1.1 = 73.293 from by norm_num,
      roundDec_eq_high 1 73.293 732 (by norm_num) (by norm_num)]
    norm_num
  have hsc : (estimate_costs (size_system fC5 (analyze_load fC5))).solar_pv_cost
      = 15975.3 := by
    rw [estimate_costs_solar, hsol, show (10.3 : ℚ) * 1551 = 15975.3 from by norm_num]
    exact roundDec_eq_self 2 15975.3 1597530 (by norm_num)
  have hbc : (estimate_costs (size_system fC5 (analyze_load fC5))).battery_cost = 0 := by
    rw [estimate_costs_battery, hkwh, show (0 : ℚ) * 485 = 0 from by norm_num]
    exact roundDec_zero 2
  have hE : equipment_cost (size_system fC5 (analyze_load fC5)) = 90970.3 := by
    unfold equipment_cost
    rw [hsol, hkwh, hgen, hinv]
    norm_num
  have htot : (estimate_costs (size_system fC5 (analyze_load fC5))).total_capital_cost
      = 122809.9 := by
    rw [estimate_costs_total, hE,
      show (90970.3 : ℚ) + 90970.3 * 0.15 + 90970.3 * 0.20 = 122809.905 from by norm_num,
      roundDec_eq_tie_even 2 122809.905 12280990 (by norm_num) (by norm_num)]
    norm_num
  have hom : (estimate_costs (size_system fC5 (analyze_load fC5))).annual_om_cost
      = 1842.15 := by
    rw [estimate_costs_annual_om, hE,
      show ((90970.3 : ℚ) + 90970.3 * 0.15 + 90970.3 * 0.20) * 0.015 = 1842.148575 from by
        norm_num,
      roundDec_eq_high 2 1842.148575 184214 (by norm_num) (by norm_num)]
    norm_num
  have harb : calculate_arbitrage_savings (size_system fC5 (analyze_load fC5)) = 0 := by
    unfold calculate_arbitrage_savings
    rw [hkwh, if_pos (le_refl 0)]
  have hdem : calculate_demand_charge_savings (size_system fC5 (analyze_load fC5)) = 0 := by
    unfold calculate_demand_charge_savings
    rw [hbkw, if_pos (le_refl 0)]
  have hprod : solar_production_kwh (size_system fC5 (analyze_load fC5)) = 24271.332 := by
    unfold solar_production_kwh
    rw [hsol]
    norm_num
  have hnas : net_annual_savings (size_system fC5 (analyze_load fC5))
      (estimate_costs (size_system fC5 (analyze_load fC5))) = 1481102487 / 12500000 := by
    unfold net_annual_savings annual_savings
    rw [hprod, harb, hdem, hom]
    norm_num
  have hnet : net_cost (estimate_costs (size_system fC5 (analyze_load fC5)))
      = 118367.31 := by
    unfold net_cost federal_itc
    rw [htot, hsc, hbc]
    norm_num
  have hpos : 0 < net_annual_savings (size_system fC5 (analyze_load fC5))
      (estimate_costs (size_system fC5 (analyze_load fC5))) := by
    rw [hnas]
    norm_num
  refine ⟨hpos, ?_⟩
  rw [analyze_financials_payback]
  have hsp : simple_payback (size_system fC5 (analyze_load fC5))
      (estimate_costs (size_system fC5 (analyze_load fC5)))
      = 118367.31 / (1481102487 / 12500000) := by
    unfold simple_payback
    rw [if_pos hpos, hnet, hnas]
  rw [hsp, roundDec_eq_high 1 (118367.31 / (1481102487 / 12500000)) 9989
    (by norm_num) (by norm_num)]
  norm_num

/-- An all-zero design (used to witness the amended C5). -/
def dZero : MicrogridDesign :=
  { solar_pv_kw := 0, battery_kw := 0, battery_kwh := 0, generator_kw := 0,
    inverter_kw := 0, total_generation_kw := 0, renewable_fraction := 0,
    critical_load_coverage := 0 }

/-- An all-zero cost estimate (used to witness the amended C5). -/
def cZero : CostEstimate :=
  { solar_pv_cost := 0, battery_cost := 0, generator_cost := 0, inverter_cost := 0,
    bos_cost := 0, installation_cost := 0, total_capital_cost := 0, annual_om_cost := 0,
    cost_per_kw := 0 }

/-- Witness for the amended C5: with zero savings the sentinel branch
fires. -/
theorem payback_branches_witness :
    net_annual_savings dZero cZero ≤ 0 ∧ simple_payback dZero cZero = 999 := by
  have hnas : net_annual_savings dZero cZero = 0 := by
    unfold net_annual_savings annual_savings solar_production_kwh
    have harb : calculate_arbitrage_savings dZero = 0 := by
      unfold calculate_arbitrage_savings
      rw [show dZero.battery_kwh = (0 : ℚ) from rfl, if_pos (le_refl (0 : ℚ))]
    have hdem : calculate_demand_charge_savings dZero = 0 := by
      unfold calculate_demand_charge_savings
      rw [show dZero.battery_kw = (0 : ℚ) from rfl, if_pos (le_refl (0 : ℚ))]
    rw [harb, hdem, show dZero.solar_pv_kw = 0 from rfl,
      show cZero.annual_om_cost = 0 from rfl]
    norm_num
  exact ⟨le_of_eq hnas, (payback_branches fC5 dZero cZero).2.1 (le_of_eq hnas)⟩

/-- C10: for every valid `FacilityInput`, the net cost after incentives
is strictly positive and at least the 350 $ of fixed fees up to cent
rounding — the 30 % ITC applies only to solar and battery equipment
while total capital is 1.35 × all equipment — so the
`net_cost > 0 else 0` fallback branch of the IRR computation is
unreachable and the IRR is always the computed ratio. -/
theorem net_cost_positive_irr_branch (f : FacilityInput) (hv : f.Valid) :
    350 - 1/100 ≤ net_cost (estimate_costs (size_system f (analyze_load f)))
    ∧ 0 < net_cost (estimate_costs (size_system f (analyze_load f)))
    ∧ 349 + 99/100 ≤ (analyze_financials f (size_system f (analyze_load f))
        (estimate_costs (size_system f (analyze_load f)))).net_cost_after_incentives
    ∧ (analyze_financials f (size_system f (analyze_load f))
        (estimate_costs (size_system f (analyze_load f)))).irr
      = roundDec 2 (net_annual_savings (size_system f (analyze_load f))
            (estimate_costs (size_system f (analyze_load f)))
          / net_cost (estimate_costs (size_system f (analyze_load f))) * 100) := by
  obtain ⟨hp, ha, hc0, hc1, he0, he1, hdur⟩ := hv
  have havg := average_demand_nonneg f ha.le
  have hb := backup_load_nonneg f hp.le hc0 he0
  have hS : 0 ≤ (size_system f (analyze_load f)).solar_pv_kw * 1551 :=
    mul_nonneg (solar_pv_nonneg f _ havg hp.le) (by norm_num)
  have hB : 0 ≤ (size_system f (analyze_load f)).battery_kwh * 485 :=
    mul_nonneg (battery_kwh_nonneg f _ hb hdur.le) (by norm_num)
  have hG : 0 ≤ (size_system f (analyze_load f)).generator_kw * 800 :=
    mul_nonneg (generator_kw_nonneg f _ hb) (by norm_num)
  have hI : 0 ≤ (size_system f (analyze_load f)).inverter_kw * 150 :=
    mul_nonneg (inverter_kw_nonneg f _ hb) (by norm_num)
  have hEdef : equipment_cost (size_system f (analyze_load f))
      = (size_system f (analyze_load f)).solar_pv_kw * 1551
        + (size_system f (analyze_load f)).battery_kwh * 485
        + (size_system f (analyze_load f)).generator_kw * 800
        + (size_system f (analyze_load f)).inverter_kw * 150 := rfl
  have h1 := abs_roundDec_sub_le 2 (equipment_cost (size_system f (analyze_load f))
    + equipment_cost (size_system f (analyze_load f)) * 0.15
    + equipment_cost (size_system f (analyze_load f)) * 0.20)
  have h2 := abs_roundDec_sub_le 2 ((size_system f (analyze_load f)).solar_pv_kw * 1551)
  have h3 := abs_roundDec_sub_le 2 ((size_system f (analyze_load f)).battery_kwh * 485)
  rw [abs_le] at h1 h2 h3
  norm_num at h1 h2 h3
  have hnetdef : net_cost (estimate_costs (size_system f (analyze_load f)))
      = (estimate_costs (size_system f (analyze_load f))).total_capital_cost
        - ((estimate_costs (size_system f (analyze_load f))).solar_pv_cost
            + (estimate_costs (size_system f (analyze_load f))).battery_cost) * 0.30
        + 75 + (50 + 500) / 2 := rfl
  have hlow : 350 - 1/100 ≤ net_cost (estimate_costs (size_system f (analyze_load f))) := by
    rw [hnetdef, estimate_costs_total, estimate_costs_solar, estimate_costs_battery]
    linarith [h1.1, h1.2, h2.1, h2.2, h3.1, h3.2]
  have hpos : 0 < net_cost (estimate_costs (size_system f (analyze_load f))) := by
    linarith
  refine ⟨hlow, hpos, ?_, ?_⟩
  · rw [analyze_financials_net]
    have hdiv := div_le_roundDec 2 (net_cost (estimate_costs (size_system f (analyze_load f))))
      34999 (by push_cast; linarith)
    calc (349 : ℚ) + 99/100 = ((34999 : ℤ) : ℚ) / 10 ^ 2 := by norm_num
    _ ≤ _ := hdiv
  · rw [analyze_financials_irr, if_pos hpos]

/-- Input used to witness C10. -/
def fC10w : FacilityInput :=
  { facility_name := "Campus", facility_type := "commercial", location := "baton_rouge",
    peak_demand_kw := 500, annual_consumption_kwh := 2000000, critical_load_percent := 30,
    essential_load_percent := 40, backup_duration_hours := 24, grid_connected := true,
    include_solar := true, include_battery := true, include_generator := true }

/-- Witness for C10 at a concrete valid input. -/
theorem net_cost_positive_irr_branch_witness :
    fC10w.Valid
    ∧ 0 < net_cost (estimate_costs (size_system fC10w (analyze_load fC10w))) :=
  ⟨by decide, (net_cost_positive_irr_branch fC10w (by decide)).2.1⟩
